import Mathlib

/-!
# Edgecase background service: shallow embedding

A shallow embedding of the streaming session manager and the context
publisher of the `edgecase` browser extension, together with proofs of the
behavioural properties stated in its specification.

The embedding follows the TypeScript sources:

* `src/extension/src/background/index.ts` — the `StreamManager` class
  (`start`, `cancel`), `saveSettings`, `trimHistory`, `buildSystemPrompt`,
  `normalizeStreamError`, the provider/style normalizers and the token
  counter update;
* `src/src/types/models.ts` — the data model and `contextSignature`;
* `src/src/content/index.tsx` — `publishContextIfChanged`.

Modelling conventions:

* JavaScript numbers are modelled as `ℚ` (the program only compares and
  copies them; no float rounding is exercised by any property proved here),
  counters as `Int`, timestamps as `Nat`.
* The persistent store is passed explicitly: each operation receives the
  parsed content of the keys it reads and returns the content it writes.
* `async`/`await` sequencing inside one call is straight-line code, so a
  call is a pure function of its inputs plus an "outcome" describing what
  the external completion capability did (the delivered deltas and how the
  stream terminated).  Cooperative cancellation surfaces exactly as in the
  source: the stream throws and `controller.signal.aborted` is `true` at
  the `catch`, which the outcome records as a thrown termination with the
  aborted flag set.
* The session `Map` keeps only keys that matter to the properties, so it is
  a `Finset String`.  `start` sets the key before its first `await` and
  deletes it only when it settles; the map is not otherwise modified, so at
  every intermediate suspension point its content is the same set, which
  the result record exposes as `duringSessions` (what a concurrently
  scheduled `cancel` would observe).
-/

/-- Embeds `ChatHistoryItem.role` from `src/src/types/models.ts`. -/
inductive Role where
  | user
  | assistant
deriving DecidableEq, Repr

/-- Embeds `ChatHistoryItem` from `src/src/types/models.ts`: one turn of the chat
history (`ts` is the `Date.now()` timestamp). -/
structure ChatHistoryItem where
  role : Role
  content : String
  ts : Nat
deriving DecidableEq, Repr

/-- Embeds `ProblemContext` from `src/src/types/models.ts`.  The `site` union and
the style unions are modelled as `String`, as the normalizing code treats
them: runtime values compared against a fixed allowed set. -/
structure ProblemContext where
  site : String
  url : String
  title : String
  description : String
  constraints : String
  examples : String
  confidence : ℚ
  extractedAt : String
deriving DecidableEq, Repr

/-- Embeds `CodeSnapshot` from `src/src/types/models.ts`. -/
structure CodeSnapshot where
  source : String
  language : Option String
  code : String
  selection : Option (Nat × Nat)
  updatedAt : String
deriving DecidableEq, Repr

/-- Embeds `TabState` from `src/src/types/models.ts`. -/
structure TabState where
  context : Option ProblemContext
  codeSnapshot : Option CodeSnapshot
deriving DecidableEq, Repr

/-- The `tokenCounter` record of `Settings`
(`src/extension/src/background/index.ts`, `DEFAULT_SETTINGS`). -/
structure TokenCounter where
  totalTokens : Int
  promptTokens : Int
  completionTokens : Int
deriving DecidableEq, Repr

/-- A stored panel rectangle (`ui.panelRectByHost` values). -/
structure PanelRect where
  x : ℚ
  y : ℚ
  width : ℚ
  height : ℚ
deriving DecidableEq, Repr

/-- The `ui` record of `Settings`: per-host panel rectangles and per-host
persona choices, modelled as association lists. -/
structure UiPreferences where
  panelRectByHost : List (String × PanelRect)
  personaByHost : List (String × String)
deriving DecidableEq, Repr

/-- Embeds `Settings` as stored and returned by the background service
(`src/extension/src/background/index.ts`). -/
structure Settings where
  provider : String
  model : String
  apiKey : String
  temperature : ℚ
  maxTokens : ℚ
  coachingStyle : String
  responseStyle : String
  systemPromptOverride : String
  tokenCounter : TokenCounter
  ui : UiPreferences
deriving DecidableEq, Repr

/-- Embeds `MAX_HISTORY_MESSAGES` (`src/extension/src/background/index.ts`, line 11). -/
def MAX_HISTORY_MESSAGES : Nat := 30

/-- Embeds `FIXED_TEMPERATURE` (`src/extension/src/background/index.ts`, line 12). -/
def FIXED_TEMPERATURE : ℚ := 0.2

/-- Embeds `FIXED_MAX_TOKENS` (`src/extension/src/background/index.ts`, line 13). -/
def FIXED_MAX_TOKENS : ℚ := 4000

/-- Embeds `DEFAULT_SETTINGS` (`src/extension/src/background/index.ts`, lines 15–33). -/
def DEFAULT_SETTINGS : Settings where
  provider := "openai"
  model := "gpt-4o-mini"
  apiKey := ""
  temperature := 0.2
  maxTokens := 700
  coachingStyle := "interviewer"
  responseStyle := "balanced"
  systemPromptOverride := ""
  tokenCounter := { totalTokens := 0, promptTokens := 0, completionTokens := 0 }
  ui := { panelRectByHost := [], personaByHost := [] }

/-- Embeds `Partial<Settings>` as received by `SAVE_SETTINGS`: every field optional. -/
structure SettingsPatch where
  provider : Option String := none
  model : Option String := none
  apiKey : Option String := none
  temperature : Option ℚ := none
  maxTokens : Option ℚ := none
  coachingStyle : Option String := none
  responseStyle : Option String := none
  systemPromptOverride : Option String := none
  tokenCounter : Option TokenCounter := none
  ui : Option UiPreferences := none
deriving DecidableEq, Repr

/-- Embeds JavaScript `String.prototype.trim()`: strip whitespace from both
ends (structurally, over the character list). -/
def jsTrim (s : String) : String :=
  String.mk (((s.data.dropWhile Char.isWhitespace).reverse.dropWhile Char.isWhitespace).reverse)

/-- Embeds `normalizeProvider` (`src/extension/src/background/index.ts`, lines 420–425). -/
def normalizeProvider (provider : String) : String :=
  if provider = "openai" ∨ provider = "anthropic" ∨ provider = "gemini" then provider
  else "openai"

/-- Embeds `normalizeCoachingStyle` (`src/extension/src/background/index.ts`, lines 427–432). -/
def normalizeCoachingStyle (style : String) : String :=
  if style = "interviewer" ∨ style = "collaborative" ∨ style = "socratic" then style
  else "interviewer"

/-- Embeds `normalizeResponseStyle` (`src/extension/src/background/index.ts`, lines 434–439). -/
def normalizeResponseStyle (style : String) : String :=
  if style = "concise" ∨ style = "balanced" ∨ style = "detailed" then style
  else "balanced"

/-- Embeds `saveSettings` (`src/extension/src/background/index.ts`, lines 322–347).
`current` is the content `getSettings()` returns for the store; the result is
both stored under the settings key and returned to the caller.  Every
`Settings` field is recomputed explicitly after the two object spreads, so
the spreads contribute nothing to the result.  Note that `temperature` and
`maxTokens` are pinned to the fixed constants; the submitted values are
ignored. -/
def saveSettings (current : Settings) (patch : SettingsPatch) : Settings where
  provider := normalizeProvider (patch.provider.getD current.provider)
  model := jsTrim (patch.model.getD current.model)
  apiKey := jsTrim (patch.apiKey.getD current.apiKey)
  temperature := FIXED_TEMPERATURE
  maxTokens := FIXED_MAX_TOKENS
  coachingStyle := normalizeCoachingStyle (patch.coachingStyle.getD current.coachingStyle)
  responseStyle := normalizeResponseStyle (patch.responseStyle.getD current.responseStyle)
  systemPromptOverride := jsTrim (patch.systemPromptOverride.getD current.systemPromptOverride)
  tokenCounter := patch.tokenCounter.getD current.tokenCounter
  ui := patch.ui.getD current.ui

/-- The normalized token usage of one completion
(`src/extension/src/background/index.ts`, `normalizeTokenUsage` output:
non-negative integers, modelled as the values already extracted from the
provider response object). -/
structure TokenUsage where
  promptTokens : Int
  completionTokens : Int
  totalTokens : Int
deriving DecidableEq, Repr

/-- Embeds `incrementTokenCounter` (`src/extension/src/background/index.ts`,
lines 376–384): reads the current settings, bumps the counters (floored at
zero) and persists them through `saveSettings` with a patch carrying only
`tokenCounter`.  (`usage.x || 0` is the identity on every number except
`NaN`, which `normalizeTokenUsage` already ruled out.) -/
def incrementTokenCounter (stored : Settings) (usage : TokenUsage) : Settings :=
  saveSettings stored
    { tokenCounter := some
        { totalTokens := max 0 (stored.tokenCounter.totalTokens + usage.totalTokens)
          promptTokens := max 0 (stored.tokenCounter.promptTokens + usage.promptTokens)
          completionTokens := max 0 (stored.tokenCounter.completionTokens + usage.completionTokens) } }

/-- Embeds `trimHistory` (`src/extension/src/background/index.ts`, lines 399–404):
keep the last `MAX_HISTORY_MESSAGES` items (`slice(length - 30)` is
`drop (length - 30)`). -/
def trimHistory (history : List ChatHistoryItem) : List ChatHistoryItem :=
  if history.length ≤ MAX_HISTORY_MESSAGES then history
  else history.drop (history.length - MAX_HISTORY_MESSAGES)

/-- The events emitted over the streaming channel
(`src/src/types/messages.ts`, `StreamEvent`). -/
inductive StreamEvent where
  | START (requestId : String)
  | CHUNK (requestId : String) (chunk : String)
  | DONE (requestId : String) (history : List ChatHistoryItem) (response : String)
  | ERROR (requestId : String) (error : String)
deriving DecidableEq, Repr

/-- Whether an event is a terminal event of its session
(`STREAM_DONE` or `STREAM_ERROR`). -/
def isTerminal : StreamEvent → Bool
  | StreamEvent.DONE _ _ _ => true
  | StreamEvent.ERROR _ _ => true
  | _ => false

/-- One message of the provider request
(`src/extension/src/background/index.ts`, lines 56–59). -/
structure ProviderMessage where
  role : Role
  content : String
deriving DecidableEq, Repr

/-- The request handed to the external completion capability: the
`createModel`/`streamText` arguments
(`src/extension/src/background/index.ts`, lines 64–72). -/
structure ProviderCall where
  provider : String
  model : String
  apiKey : String
  system : String
  messages : List ProviderMessage
  temperature : ℚ
  maxTokens : ℚ
deriving DecidableEq, Repr

/-- JavaScript `x || fallback` on strings: the empty string is falsy. -/
def jsOrString (s fallback : String) : String :=
  if s = "" then fallback else s

/-- JavaScript `Math.round` on the exact rationals used here:
round half toward positive infinity. -/
def jsRound (q : ℚ) : Int :=
  Int.floor (q + 1 / 2)

/-- Embeds `resolveCoachingInstruction`
(`src/extension/src/background/index.ts`, lines 251–266): a per-session
persona override takes precedence over the stored coaching style. -/
def resolveCoachingInstruction (style : String) (personaMode : Option String) : String :=
  if personaMode = some "collaborator" then
    "You are a collaborative coding partner. Be direct, practical, and unblock quickly with concise snippets when useful. If user explicitly asks for full solution, provide it."
  else if personaMode = some "interviewer" then
    "You are a strict technical interviewer. Use Socratic coaching, ask clarifying questions, and avoid full code unless user explicitly asks for full solution."
  else if style = "collaborative" then
    "You are a collaborative coding coach. Give practical guidance and direct next steps."
  else if style = "socratic" then
    "You are a Socratic coding coach. Ask concise guiding questions before giving direct answers."
  else
    "You are a mock technical interviewer and reasoning coach. Use progressive hints and avoid full solutions unless explicitly requested."

/-- The serialized problem context section of the system instruction
(`src/extension/src/background/index.ts`, lines 215–232). -/
def contextText (context : Option ProblemContext) : String :=
  match context with
  | none => "No parsed problem context was found. Ask user to paste statement if needed."
  | some c =>
      String.intercalate "\n"
        [ "Site: " ++ c.site
        , "URL: " ++ c.url
        , "Title: " ++ jsOrString c.title "Unknown"
        , ""
        , "Problem Statement:"
        , jsOrString c.description "(missing)"
        , ""
        , "Constraints:"
        , jsOrString c.constraints "(none)"
        , ""
        , "Examples:"
        , jsOrString c.examples "(none)"
        , ""
        , "Extraction Confidence: " ++ toString (jsRound (c.confidence * 100)) ++ "%" ]

/-- The serialized code snapshot section of the system instruction
(`src/extension/src/background/index.ts`, lines 234–244): used only when a
snapshot is present and its code is non-empty after trimming. -/
def codeText (code : Option CodeSnapshot) : String :=
  match code with
  | none => "No code snapshot available yet."
  | some c =>
      if jsTrim c.code = "" then "No code snapshot available yet."
      else
        String.intercalate "\n"
          [ "Current Code Snapshot:"
          , "Source: " ++ c.source
          , "Language: " ++ jsOrString (c.language.getD "") "unknown"
          , match c.selection with
            | some r => "Selection: " ++ toString r.1 ++ "-" ++ toString r.2
            | none => "Selection: none"
          , "```"
          , c.code
          , "```" ]

/-- Embeds `buildSystemPrompt` (`src/extension/src/background/index.ts`,
lines 200–249): the five sections, empty ones filtered out
(`filter(Boolean)`), joined with blank-line separators. -/
def buildSystemPrompt (context : Option ProblemContext) (code : Option CodeSnapshot)
    (settings : Settings) (personaMode : Option String) : String :=
  String.intercalate "\n\n"
    (List.filter (fun s => s ≠ "")
      [ resolveCoachingInstruction settings.coachingStyle personaMode
      , (if settings.responseStyle = "concise" then
          "Keep responses concise and high signal."
        else if settings.responseStyle = "detailed" then
          "Use detailed step-by-step reasoning with pitfalls and tradeoffs."
        else
          "Balance concise guidance with enough detail to unblock quickly.")
      , jsTrim settings.systemPromptOverride
      , contextText context
      , codeText code ])

/-- Embeds `normalizeStreamError` (`src/extension/src/background/index.ts`,
lines 282–287): `some m` is an `Error` with message `m`, `none` a thrown
non-`Error` value. -/
def normalizeStreamError (error : Option String) : String :=
  match error with
  | some m => m
  | none => "Streaming request failed."

/-- How the external completion stream terminated, seen from the `try`
block of `StreamManager.start`. -/
inductive StreamResult where
  /-- The `for await` loop finished and `result.usage` resolved to the
  given normalized usage: the success path. -/
  | ok (usage : TokenUsage)
  /-- An exception was thrown (`err = some m`: an `Error` with message `m`;
  `none`: a non-`Error` value); `aborted` is `controller.signal.aborted` at
  the `catch`, `true` exactly when `cancel` aborted the session
  controller before the exception was caught. -/
  | thrown (err : Option String) (aborted : Bool)
deriving DecidableEq, Repr

/-- What the external completion capability did during one session: the
text deltas delivered by `result.textStream` in order, then the
termination. -/
structure StreamOutcome where
  chunks : List String
  result : StreamResult
deriving DecidableEq, Repr

/-- Embeds `StreamManager.sessionKey` (`src/extension/src/background/index.ts`,
lines 116–118): the template literal over a numeric tab id and the request
id. -/
def sessionKey (tabId : Int) (requestId : String) : String :=
  toString tabId ++ ":" ++ requestId

/-- The inputs of one `StreamManager.start` call: the request fields, the
parsed store content read during the call (`getSettings`, `getTabState`,
`getHistory`), the session map at entry, the completion outcome, and the
two `Date.now()` readings of the success path. -/
structure StartEnv where
  tabId : Int
  requestId : String
  text : String
  reqContext : Option ProblemContext
  reqCodeSnapshot : Option CodeSnapshot
  personaMode : Option String
  settings : Settings
  tabState : TabState
  history : List ChatHistoryItem
  outcome : StreamOutcome
  sessions : Finset String
  nowUser : Nat
  nowAssistant : Nat

/-- The observable effects of one `StreamManager.start` call:
the events posted to the port in order, the history and settings store
content when the call settles, the session map when the call settles, the
session map at every intermediate suspension point (it is set before the
first `await` and deleted only on settling, so it is one constant set),
and the request handed to the completion capability, if any. -/
structure StartResult where
  events : List StreamEvent
  storedHistory : List ChatHistoryItem
  storedSettings : Settings
  finalSessions : Finset String
  duringSessions : Finset String
  providerCall : Option ProviderCall

/-- Embeds `StreamManager.start` (`src/extension/src/background/index.ts`,
lines 38–101) as a function of its inputs.  Control flow mirrors the
source: register the session; read settings and bail out with a
`STREAM_ERROR` when no API key is configured; resolve context and code
snapshot preferring the request values (`||`) over the stored tab state;
read history; emit `STREAM_START`; stream; on success trim and persist the
appended history, bump the token counter and emit `STREAM_DONE`; on a
thrown error emit `STREAM_ERROR` (the cancellation message when the abort
signal fired); in all branches delete the session key. -/
def startExec (env : StartEnv) : StartResult :=
  let key := sessionKey env.tabId env.requestId
  let inFlight := insert key env.sessions
  if env.settings.apiKey = "" then
    { events := [StreamEvent.ERROR env.requestId "Missing API key."]
      storedHistory := env.history
      storedSettings := env.settings
      finalSessions := inFlight.erase key
      duringSessions := inFlight
      providerCall := none }
  else
    let context := match env.reqContext with
      | some c => some c
      | none => env.tabState.context
    let codeSnapshot := match env.reqCodeSnapshot with
      | some c => some c
      | none => env.tabState.codeSnapshot
    let systemPrompt := buildSystemPrompt context codeSnapshot env.settings env.personaMode
    let messages :=
      env.history.map (fun item => ProviderMessage.mk item.role item.content)
        ++ [ProviderMessage.mk Role.user env.text]
    let call : ProviderCall :=
      { provider := env.settings.provider
        model := env.settings.model
        apiKey := env.settings.apiKey
        system := systemPrompt
        messages := messages
        temperature := FIXED_TEMPERATURE
        maxTokens := FIXED_MAX_TOKENS }
    let chunkEvents := env.outcome.chunks.map (fun delta => StreamEvent.CHUNK env.requestId delta)
    match env.outcome.result with
    | StreamResult.ok usage =>
        let response := env.outcome.chunks.foldl (fun acc delta => acc ++ delta) ""
        let nextHistory := trimHistory (env.history ++
          [ { role := Role.user, content := env.text, ts := env.nowUser }
          , { role := Role.assistant, content := jsTrim response, ts := env.nowAssistant } ])
        { events := StreamEvent.START env.requestId :: chunkEvents
            ++ [StreamEvent.DONE env.requestId nextHistory (jsTrim response)]
          storedHistory := nextHistory
          storedSettings := incrementTokenCounter env.settings usage
          finalSessions := inFlight.erase key
          duringSessions := inFlight
          providerCall := some call }
    | StreamResult.thrown err aborted =>
        { events := StreamEvent.START env.requestId :: chunkEvents
            ++ [StreamEvent.ERROR env.requestId
                  (if aborted then "Request canceled." else normalizeStreamError err)]
          storedHistory := env.history
          storedSettings := env.settings
          finalSessions := inFlight.erase key
          duringSessions := inFlight
          providerCall := some call }

/-- The `StreamManager` state visible to `cancel`: the session map keys and
the set of keys whose `AbortController` has been aborted. -/
structure ManagerState where
  sessions : Finset String
  abortedKeys : Finset String
deriving DecidableEq

/-- Embeds `StreamManager.cancel` (`src/extension/src/background/index.ts`,
lines 103–106): `sessions.get(key)?.controller.abort()` — abort the
controller when the session is known, otherwise do nothing.  It posts no
event and touches neither the session map nor the persistent store; the
returned event list is what it posts, always empty. -/
def cancel (st : ManagerState) (tabId : Int) (requestId : String) :
    ManagerState × List StreamEvent :=
  if sessionKey tabId requestId ∈ st.sessions then
    ({ st with abortedKeys := insert (sessionKey tabId requestId) st.abortedKeys }, [])
  else
    (st, [])

/-- Embeds `contextSignature` (`src/src/types/models.ts`, lines 121–126):
`[url, title, description.slice(0, 1500)].join("|")`, the empty string for
a missing context. -/
def contextSignature (context : Option ProblemContext) : String :=
  match context with
  | none => ""
  | some c => String.intercalate "|" [c.url, c.title, c.description.take 1500]

/-- The tab-side publisher state touched by `publishContextIfChanged`
(`src/src/content/index.tsx`): the module-level `lastContextSignature`
(initially `""`) and the `state` fields it assigns. -/
structure PublisherState where
  lastContextSignature : String
  context : Option ProblemContext
  statusText : String
  statusType : String
deriving DecidableEq, Repr

/-- Embeds `publishContextIfChanged` (`src/src/content/index.tsx`, lines 357–377)
as a function of the force flag, the result of `extractProblemContext()`
and the publisher state.  The second component is the payload of the
`CONTEXT_UPDATE` bus call when one is made, `none` when the call is
suppressed (no context found, or unchanged signature and not forced). -/
def publishContextIfChanged (force : Bool) (extracted : Option ProblemContext)
    (st : PublisherState) : PublisherState × Option ProblemContext :=
  match extracted with
  | none =>
      ({ st with statusText := "No problem context found", statusType := "warn" }, none)
  | some context =>
      let signature := contextSignature (some context)
      if ¬ force ∧ signature = st.lastContextSignature then
        (st, none)
      else
        ({ lastContextSignature := signature
           context := some context
           statusText := if context.confidence ≥ 0.7 then "Ready" else "Partial context detected"
           statusType := if context.confidence ≥ 0.7 then "ok" else "warn" },
         some context)

/-! ## Helper lemmas -/

/-- Embeds `trimHistory` keeps exactly `min length MAX_HISTORY_MESSAGES` items. -/
theorem trimHistory_length (l : List ChatHistoryItem) :
    (trimHistory l).length = min l.length MAX_HISTORY_MESSAGES := by
  unfold trimHistory
  split
  · omega
  · rw [List.length_drop]
    omega

/-- Embeds `trimHistory` drops only from the front: the last two items of an
appended pair survive. -/
theorem trimHistory_append_last_two (l : List ChatHistoryItem) (u a : ChatHistoryItem) :
    ∃ rest, trimHistory (l ++ [u, a]) = rest ++ [u, a] := by
  unfold trimHistory
  split
  · exact ⟨l, rfl⟩
  · have hle : (l ++ [u, a]).length - MAX_HISTORY_MESSAGES ≤ l.length := by
      simp only [List.length_append, List.length_cons, List.length_nil, MAX_HISTORY_MESSAGES]
      omega
    exact ⟨l.drop ((l ++ [u, a]).length - MAX_HISTORY_MESSAGES),
      List.drop_append_of_le_length hle⟩

/-- Case split on the event trace of `startExec`: either the
missing-credential bailout, or `STREAM_START`, one `STREAM_CHUNK` per
delivered delta, and one terminal event. -/
theorem startExec_events_split (env : StartEnv) :
    (env.settings.apiKey = "" ∧
      (startExec env).events = [StreamEvent.ERROR env.requestId "Missing API key."]) ∨
    (env.settings.apiKey ≠ "" ∧
      ∃ term, isTerminal term = true ∧
        (startExec env).events =
          StreamEvent.START env.requestId ::
            (env.outcome.chunks.map (StreamEvent.CHUNK env.requestId) ++ [term])) := by
  by_cases h : env.settings.apiKey = ""
  · left
    refine ⟨h, ?_⟩
    simp [startExec, h]
  · right
    refine ⟨h, ?_⟩
    cases hr : env.outcome.result with
    | ok usage =>
        refine ⟨StreamEvent.DONE env.requestId
          (trimHistory (env.history ++
            [ { role := Role.user, content := env.text, ts := env.nowUser }
            , { role := Role.assistant,
                content := jsTrim (env.outcome.chunks.foldl (fun acc delta => acc ++ delta) ""),
                ts := env.nowAssistant } ]))
          (jsTrim (env.outcome.chunks.foldl (fun acc delta => acc ++ delta) "")), rfl, ?_⟩
        simp [startExec, h, hr]
    | thrown err aborted =>
        refine ⟨StreamEvent.ERROR env.requestId
          (if aborted then "Request canceled." else normalizeStreamError err), rfl, ?_⟩
        simp [startExec, h, hr]

/-- Chunk events are never terminal, composed form. -/
theorem countP_chunks (r : String) (cs : List String) :
    List.countP (isTerminal ∘ StreamEvent.CHUNK r) cs = 0 := by
  simp [Function.comp, isTerminal]

/-- Every `start` call posts exactly one terminal event. -/
theorem startExec_one_terminal (env : StartEnv) :
    ((startExec env).events.countP isTerminal) = 1 := by
  rcases startExec_events_split env with ⟨_, hev⟩ | ⟨_, term, hterm, hev⟩
  · rw [hev]
    rfl
  · rw [hev, List.countP_cons, List.countP_append, List.countP_map, countP_chunks,
      List.countP_singleton, hterm]
    rfl

/-! ## Claims -/

/-- Claim C2 counterexample: saving settings with `temperature = 5` does not
clamp to the nearest bound of `[0, 1]`: the returned (and stored) settings
carry temperature `0.2`, not `1`. -/
theorem saveSettings_temperature_five_not_one :
    (saveSettings DEFAULT_SETTINGS { temperature := some 5 }).temperature ≠ 1 ∧
    (saveSettings DEFAULT_SETTINGS { temperature := some 5 }).temperature = 0.2 := by
  constructor
  · show FIXED_TEMPERATURE ≠ 1
    norm_num [FIXED_TEMPERATURE]
  · rfl

/-- Claim C2 (amended): every SAVE_SETTINGS call succeeds rather than
rejecting, and the returned and stored settings carry the fixed temperature
`0.2` (and the fixed `maxTokens` `4000`) regardless of the submitted
values — the submitted temperature is ignored, not clamped. -/
theorem saveSettings_temperature_fixed (current : Settings) (patch : SettingsPatch) :
    (saveSettings current patch).temperature = 0.2 ∧
    (saveSettings current patch).maxTokens = 4000 :=
  ⟨rfl, rfl⟩

/-- Claim C7: in every branch of `start` (missing credential, normal
completion, thrown error, cancellation) the session entry is removed by the
time the call settles: the final session map is the entry map with the key
erased, so no orphaned session persists. -/
theorem startExec_no_orphan_session (env : StartEnv) :
    (startExec env).finalSessions =
      (insert (sessionKey env.tabId env.requestId) env.sessions).erase
        (sessionKey env.tabId env.requestId) ∧
    sessionKey env.tabId env.requestId ∉ (startExec env).finalSessions := by
  have h : (startExec env).finalSessions =
      (insert (sessionKey env.tabId env.requestId) env.sessions).erase
        (sessionKey env.tabId env.requestId) := by
    unfold startExec
    by_cases hk : env.settings.apiKey = ""
    · simp [hk]
    · cases hr : env.outcome.result <;> simp [hk, hr]
  refine ⟨h, ?_⟩
  rw [h]
  exact Finset.not_mem_erase _ _

/-- Claim C6: `cancel` is idempotent and total — it posts no event, leaves
the session map unchanged (for unknown pairs it changes nothing at all),
repeating it is a no-op, and it cannot cause a duplicate terminal event
because every `start` call posts exactly one terminal event whatever its
outcome. -/
theorem cancel_idempotent (st : ManagerState) (tabId : Int) (requestId : String) :
    (cancel st tabId requestId).2 = [] ∧
    (cancel st tabId requestId).1.sessions = st.sessions ∧
    (sessionKey tabId requestId ∉ st.sessions → cancel st tabId requestId = (st, [])) ∧
    cancel (cancel st tabId requestId).1 tabId requestId = cancel st tabId requestId ∧
    (∀ env : StartEnv, ((startExec env).events.countP isTerminal) = 1) := by
  refine ⟨?_, ?_, ?_, ?_, startExec_one_terminal⟩
  · unfold cancel
    split <;> rfl
  · unfold cancel
    split <;> rfl
  · intro h
    unfold cancel
    simp [h]
  · unfold cancel
    by_cases h : sessionKey tabId requestId ∈ st.sessions
    · simp [h, Finset.insert_idem]
    · simp [h]

/-- In every branch, `start` settles with the session key erased from the
map it registered it in. -/
theorem startExec_finalSessions (env : StartEnv) :
    (startExec env).finalSessions =
      (insert (sessionKey env.tabId env.requestId) env.sessions).erase
        (sessionKey env.tabId env.requestId) := by
  unfold startExec
  by_cases hk : env.settings.apiKey = ""
  · simp [hk]
  · cases hr : env.outcome.result <;> simp [hk, hr]

/-- Last element of a cons around a concat. -/
theorem getLast?_cons_concat {α : Type} (a x : α) (l : List α) :
    (a :: (l ++ [x])).getLast? = some x := by
  rw [show a :: (l ++ [x]) = (a :: l) ++ [x] from rfl]
  exact List.getLast?_concat _

/-- When a credential is configured, `start` hands the completion
capability the prior history followed by a user message carrying the raw
request text. -/
theorem startExec_providerCall (env : StartEnv) (hkey : ¬ env.settings.apiKey = "") :
    ∃ call, (startExec env).providerCall = some call ∧
      call.messages =
        env.history.map (fun item => ProviderMessage.mk item.role item.content)
          ++ [ProviderMessage.mk Role.user env.text] := by
  unfold startExec
  rw [if_neg hkey]
  cases hr : env.outcome.result with
  | ok usage => exact ⟨_, rfl, rfl⟩
  | thrown err aborted => exact ⟨_, rfl, rfl⟩

/-- Claim C8: within every session the event trace of `start` is strictly
ordered — it is a possibly empty body followed by exactly one terminal
event (`STREAM_DONE` or `STREAM_ERROR`), nothing is emitted after the
terminal event (late cleanup posts nothing), no event of the body is
terminal, and the body is either empty or `STREAM_START` followed only by
`STREAM_CHUNK` events, so every `STREAM_START` precedes every
`STREAM_CHUNK` and all chunks precede the terminal event. -/
theorem startExec_event_order (env : StartEnv) :
    ∃ body term,
      (startExec env).events = body ++ [term] ∧
      isTerminal term = true ∧
      (∀ e ∈ body, isTerminal e = false) ∧
      ((startExec env).events.countP isTerminal = 1) ∧
      (body = [] ∨ ∃ cs, body =
        StreamEvent.START env.requestId :: List.map (StreamEvent.CHUNK env.requestId) cs) := by
  rcases startExec_events_split env with ⟨_, hev⟩ | ⟨_, term, hterm, hev⟩
  · refine ⟨[], StreamEvent.ERROR env.requestId "Missing API key.",
      by rw [hev]; rfl, rfl, ?_, startExec_one_terminal env, Or.inl rfl⟩
    intro e he
    exact absurd he (List.not_mem_nil e)
  · refine ⟨StreamEvent.START env.requestId ::
        List.map (StreamEvent.CHUNK env.requestId) env.outcome.chunks, term,
      by rw [hev]; rfl, hterm, ?_, startExec_one_terminal env,
      Or.inr ⟨env.outcome.chunks, rfl⟩⟩
    intro e he
    rcases List.mem_cons.mp he with rfl | hmem
    · rfl
    · rcases List.mem_map.mp hmem with ⟨c, _, rfl⟩
      rfl

/-- A whitespace-only request processed by `start` with a configured
credential: concrete input refuting claim C1. -/
def emptyTextEnv : StartEnv where
  tabId := 1
  requestId := "r1"
  text := " "
  reqContext := none
  reqCodeSnapshot := none
  personaMode := none
  settings := { DEFAULT_SETTINGS with apiKey := "k" }
  tabState := { context := none, codeSnapshot := none }
  history := []
  outcome := { chunks := [], result := StreamResult.thrown none false }
  sessions := ∅
  nowUser := 0
  nowAssistant := 0

/-- Claim C1 counterexample: a `SEND_CHAT_STREAM` request whose text is
whitespace-only is not rejected by `StreamManager.start`: with a credential
configured it emits `STREAM_START`, reads the history and issues the
provider call — the source has no emptiness check (only the UI composer
filters empty input before sending). -/
theorem startExec_empty_text_emits_start :
    jsTrim emptyTextEnv.text = "" ∧
    StreamEvent.START "r1" ∈ (startExec emptyTextEnv).events ∧
    (startExec emptyTextEnv).providerCall.isSome = true := by
  refine ⟨rfl, ?_, rfl⟩
  have h : (startExec emptyTextEnv).events =
      [StreamEvent.START "r1", StreamEvent.ERROR "r1" "Streaming request failed."] := rfl
  rw [h]
  exact List.mem_cons_self _ _

/-- Claim C1 (amended): `StreamManager.start` performs no emptiness check on
the request text — a request whose text is empty or whitespace-only after
trimming is, when a credential is configured, processed like any other:
`STREAM_START` is emitted first and the provider is called with the raw
text as the final user message; the session map once `start` settles is
the entry map with the session key inserted and then erased (so it is net
unchanged whenever the pair was not already registered).  Empty input is
rejected only by the UI composer, before a `SEND_CHAT_STREAM` request is
ever formed. -/
theorem startExec_empty_text_processed (env : StartEnv)
    (_hempty : jsTrim env.text = "") (hkey : ¬ env.settings.apiKey = "") :
    (startExec env).events.head? = some (StreamEvent.START env.requestId) ∧
    (∃ call, (startExec env).providerCall = some call ∧
      call.messages.getLast? = some (ProviderMessage.mk Role.user env.text)) ∧
    (startExec env).finalSessions =
      (insert (sessionKey env.tabId env.requestId) env.sessions).erase
        (sessionKey env.tabId env.requestId) := by
  refine ⟨?_, ?_, startExec_finalSessions env⟩
  · rcases startExec_events_split env with ⟨hk, _⟩ | ⟨_, term, hterm, hev⟩
    · exact absurd hk hkey
    · rw [hev]
      rfl
  · rcases startExec_providerCall env hkey with ⟨call, hcall, hmsg⟩
    refine ⟨call, hcall, ?_⟩
    rw [hmsg]
    exact List.getLast?_concat _

/-- Claim C1 witness: the amended statement evaluated at the concrete
whitespace-only request. -/
theorem startExec_empty_text_processed_witness :
    (startExec emptyTextEnv).events.head? = some (StreamEvent.START "r1") ∧
    (startExec emptyTextEnv).finalSessions = ∅ := by
  have h := startExec_empty_text_processed emptyTextEnv rfl (by decide)
  exact ⟨h.1, by rw [h.2.2]; rfl⟩

/-- A request arriving while no credential is stored: concrete input for
claim C3. -/
def missingKeyEnv : StartEnv where
  tabId := 7
  requestId := "r7"
  text := "hello"
  reqContext := none
  reqCodeSnapshot := none
  personaMode := none
  settings := DEFAULT_SETTINGS
  tabState := { context := none, codeSnapshot := none }
  history := [{ role := Role.user, content := "old", ts := 5 }]
  outcome := { chunks := [], result := StreamResult.thrown none false }
  sessions := ∅
  nowUser := 0
  nowAssistant := 0

/-- Claim C3 counterexample: with no credential configured, `start` does
register a session entry before reading settings, and that entry is
observable by a concurrent `cancel` during the settings read — the cancel
finds the session and aborts its controller.  The claim that no session
was ever observable by a concurrent cancel is false. -/
theorem startExec_missing_credential_observable :
    missingKeyEnv.settings.apiKey = "" ∧
    sessionKey 7 "r7" ∈ (startExec missingKeyEnv).duringSessions ∧
    (cancel { sessions := (startExec missingKeyEnv).duringSessions, abortedKeys := ∅ }
        7 "r7").1.abortedKeys = {sessionKey 7 "r7"} := by
  refine ⟨rfl, ?_, ?_⟩
  · have h : (startExec missingKeyEnv).duringSessions =
        insert (sessionKey 7 "r7") ∅ := rfl
    rw [h]
    exact Finset.mem_insert_self _ _
  · have h : sessionKey 7 "r7" ∈ (startExec missingKeyEnv).duringSessions := by
      have h0 : (startExec missingKeyEnv).duringSessions =
          insert (sessionKey 7 "r7") ∅ := rfl
      rw [h0]
      exact Finset.mem_insert_self _ _
    unfold cancel
    rw [if_pos h]
    simp

/-- Claim C3 (amended): when the stored credential is empty, `start` fails
immediately with the missing-credential `STREAM_ERROR`, emits no
`STREAM_START` and no `STREAM_CHUNK`, issues no provider call, leaves the
persisted history and settings untouched, and the session map holds no
entry for the pair once `start` returns; however, the entry registered at
the top of `start` is present in the session map at the suspension point of
the settings read, where a concurrently scheduled `cancel` can observe
it. -/
theorem startExec_missing_credential (env : StartEnv)
    (h : env.settings.apiKey = "") :
    (startExec env).events = [StreamEvent.ERROR env.requestId "Missing API key."] ∧
    (∀ r, StreamEvent.START r ∉ (startExec env).events) ∧
    (∀ r c, StreamEvent.CHUNK r c ∉ (startExec env).events) ∧
    (startExec env).providerCall = none ∧
    (startExec env).storedHistory = env.history ∧
    (startExec env).storedSettings = env.settings ∧
    sessionKey env.tabId env.requestId ∉ (startExec env).finalSessions ∧
    sessionKey env.tabId env.requestId ∈ (startExec env).duringSessions := by
  have hres : startExec env =
      { events := [StreamEvent.ERROR env.requestId "Missing API key."]
        storedHistory := env.history
        storedSettings := env.settings
        finalSessions := (insert (sessionKey env.tabId env.requestId) env.sessions).erase
          (sessionKey env.tabId env.requestId)
        duringSessions := insert (sessionKey env.tabId env.requestId) env.sessions
        providerCall := none } := by
    unfold startExec
    rw [if_pos h]
  rw [hres]
  refine ⟨rfl, ?_, ?_, rfl, rfl, rfl, Finset.not_mem_erase _ _, Finset.mem_insert_self _ _⟩
  · intro r hmem
    simp at hmem
  · intro r c hmem
    simp at hmem

/-- Claim C3 witness: the amended statement evaluated at the concrete
credential-less request. -/
theorem startExec_missing_credential_witness :
    (startExec missingKeyEnv).events = [StreamEvent.ERROR "r7" "Missing API key."] ∧
    (startExec missingKeyEnv).providerCall = none ∧
    (startExec missingKeyEnv).storedHistory = missingKeyEnv.history := by
  have h := startExec_missing_credential missingKeyEnv rfl
  exact ⟨h.1, h.2.2.2.1, h.2.2.2.2.1⟩

/-- A canceled session over a non-empty prior history: concrete input for
claim C5. -/
def canceledEnv : StartEnv where
  tabId := 2
  requestId := "r2"
  text := "hi"
  reqContext := none
  reqCodeSnapshot := none
  personaMode := none
  settings := { DEFAULT_SETTINGS with apiKey := "k" }
  tabState := { context := none, codeSnapshot := none }
  history := [{ role := Role.user, content := "old", ts := 1 }]
  outcome := { chunks := ["par"], result := StreamResult.thrown none true }
  sessions := ∅
  nowUser := 0
  nowAssistant := 0

/-- Claim C5: history is persisted only on the success path — a session
that ends in cancellation or any other thrown failure leaves the persisted
history (and settings) exactly as they were before the request started,
and a canceled session terminates with the cancellation-specific
`STREAM_ERROR` message, which differs from the generic failure message
used for a thrown non-`Error` value. -/
theorem startExec_failure_keeps_history (env : StartEnv) (err : Option String)
    (aborted : Bool) (hkey : ¬ env.settings.apiKey = "")
    (h : env.outcome.result = StreamResult.thrown err aborted) :
    (startExec env).storedHistory = env.history ∧
    (startExec env).storedSettings = env.settings ∧
    (aborted = true →
      (startExec env).events.getLast? =
        some (StreamEvent.ERROR env.requestId "Request canceled.")) ∧
    (aborted = false →
      (startExec env).events.getLast? =
        some (StreamEvent.ERROR env.requestId (normalizeStreamError err))) ∧
    "Request canceled." ≠ normalizeStreamError none := by
  have hev : (startExec env).events =
      StreamEvent.START env.requestId ::
        (env.outcome.chunks.map (StreamEvent.CHUNK env.requestId) ++
          [StreamEvent.ERROR env.requestId
            (if aborted then "Request canceled." else normalizeStreamError err)]) := by
    simp [startExec, hkey, h]
  refine ⟨by simp [startExec, hkey, h], by simp [startExec, hkey, h], ?_, ?_, by decide⟩
  · intro hab
    rw [hev, hab]
    simp only [if_pos rfl]
    exact getLast?_cons_concat _ _ _
  · intro hab
    rw [hev, hab]
    simp only [Bool.false_eq_true, if_false]
    exact getLast?_cons_concat _ _ _

/-- Claim C5 witness: the statement evaluated at the concrete canceled
session; the prior history survives byte-identically and the terminal event
carries the cancellation message. -/
theorem startExec_failure_keeps_history_witness :
    (startExec canceledEnv).storedHistory =
      [{ role := Role.user, content := "old", ts := 1 }] ∧
    (startExec canceledEnv).events.getLast? =
      some (StreamEvent.ERROR "r2" "Request canceled.") := by
  have h := startExec_failure_keeps_history canceledEnv none true (by decide) rfl
  exact ⟨h.1, h.2.2.1 rfl⟩

/-- A successful session whose single chunk carries leading whitespace:
concrete input refuting the untrimmed-concatenation reading of claim C4. -/
def trimmedEnv : StartEnv where
  tabId := 3
  requestId := "r3"
  text := "q"
  reqContext := none
  reqCodeSnapshot := none
  personaMode := none
  settings := { DEFAULT_SETTINGS with apiKey := "k" }
  tabState := { context := none, codeSnapshot := none }
  history := []
  outcome := { chunks := [" hi"], result := StreamResult.ok { promptTokens := 0, completionTokens := 0, totalTokens := 0 } }
  sessions := ∅
  nowUser := 0
  nowAssistant := 0

/-- Claim C4 counterexample: the stored (and reported) assistant turn is not
the full concatenation of the emitted `STREAM_CHUNK` increments — the
single increment " hi" was emitted as a chunk, but the assistant turn
carries the trimmed text "hi". -/
theorem startExec_assistant_not_full_concatenation :
    trimmedEnv.outcome.chunks.foldl (fun acc delta => acc ++ delta) "" = " hi" ∧
    StreamEvent.CHUNK "r3" " hi" ∈ (startExec trimmedEnv).events ∧
    (startExec trimmedEnv).storedHistory =
      [ { role := Role.user, content := "q", ts := 0 }
      , { role := Role.assistant, content := "hi", ts := 0 } ] ∧
    ("hi" : String) ≠ " hi" := by
  refine ⟨rfl, ?_, ?_, by decide⟩
  · have h : (startExec trimmedEnv).events =
        [ StreamEvent.START "r3", StreamEvent.CHUNK "r3" " hi"
        , StreamEvent.DONE "r3" (startExec trimmedEnv).storedHistory "hi" ] := rfl
    rw [h]
    simp
  · have h : (startExec trimmedEnv).storedHistory =
        [ { role := Role.user, content := "q", ts := 0 }
        , { role := Role.assistant, content := jsTrim " hi", ts := 0 } ] := rfl
    rw [show jsTrim " hi" = "hi" from by decide] at h
    exact h

/-- Claim C4 (amended): for every session that completes normally with a
configured credential, the `STREAM_DONE` event is the last event and
carries exactly the persisted history and the trimmed full response; that
history has length `min (previousLength + 2) 30` and ends with the new user
turn carrying the raw request text followed by the new assistant turn
carrying the **whitespace-trimmed** concatenation of all emitted
`STREAM_CHUNK` increments. -/
theorem startExec_done_history (env : StartEnv) (usage : TokenUsage)
    (hkey : ¬ env.settings.apiKey = "")
    (h : env.outcome.result = StreamResult.ok usage) :
    (∃ rest,
      (startExec env).storedHistory = rest ++
        [ { role := Role.user, content := env.text, ts := env.nowUser }
        , { role := Role.assistant,
            content := jsTrim (env.outcome.chunks.foldl (fun acc delta => acc ++ delta) ""),
            ts := env.nowAssistant } ]) ∧
    (startExec env).storedHistory.length =
      min (env.history.length + 2) MAX_HISTORY_MESSAGES ∧
    (startExec env).events.getLast? =
      some (StreamEvent.DONE env.requestId (startExec env).storedHistory
        (jsTrim (env.outcome.chunks.foldl (fun acc delta => acc ++ delta) ""))) := by
  have hsh : (startExec env).storedHistory =
      trimHistory (env.history ++
        [ { role := Role.user, content := env.text, ts := env.nowUser }
        , { role := Role.assistant,
            content := jsTrim (env.outcome.chunks.foldl (fun acc delta => acc ++ delta) ""),
            ts := env.nowAssistant } ]) := by
    simp [startExec, hkey, h]
  have hev : (startExec env).events =
      StreamEvent.START env.requestId ::
        (env.outcome.chunks.map (StreamEvent.CHUNK env.requestId) ++
          [StreamEvent.DONE env.requestId
            (trimHistory (env.history ++
              [ { role := Role.user, content := env.text, ts := env.nowUser }
              , { role := Role.assistant,
                  content := jsTrim (env.outcome.chunks.foldl (fun acc delta => acc ++ delta) ""),
                  ts := env.nowAssistant } ]))
            (jsTrim (env.outcome.chunks.foldl (fun acc delta => acc ++ delta) ""))]) := by
    simp [startExec, hkey, h]
  refine ⟨?_, ?_, ?_⟩
  · rw [hsh]
    exact trimHistory_append_last_two _ _ _
  · rw [hsh, trimHistory_length]
    simp
  · rw [hev, hsh]
    exact getLast?_cons_concat _ _ _

/-- Claim C4 witness: the amended statement evaluated at the concrete
successful session; the history gains the user turn and the trimmed
assistant turn and the terminal `STREAM_DONE` carries both. -/
theorem startExec_done_history_witness :
    (startExec trimmedEnv).storedHistory.length = min (0 + 2) MAX_HISTORY_MESSAGES ∧
    (startExec trimmedEnv).events.getLast? =
      some (StreamEvent.DONE "r3" (startExec trimmedEnv).storedHistory
        (jsTrim " hi")) := by
  have h := startExec_done_history trimmedEnv
    { promptTokens := 0, completionTokens := 0, totalTokens := 0 } (by decide) rfl
  exact ⟨h.2.1, h.2.2⟩


/-- Reduction of `publishContextIfChanged` when the extraction produced a
context: the signature guard decides between suppression and publication. -/
theorem publishContextIfChanged_some (force : Bool) (c : ProblemContext)
    (st : PublisherState) :
    publishContextIfChanged force (some c) st =
      if ¬ force ∧ contextSignature (some c) = st.lastContextSignature then
        (st, none)
      else
        ({ lastContextSignature := contextSignature (some c)
           context := some c
           statusText := if c.confidence ≥ 0.7 then "Ready" else "Partial context detected"
           statusType := if c.confidence ≥ 0.7 then "ok" else "warn" },
         some c) := rfl

/-- After processing an extraction that produced a context, the remembered
signature is that context signature — whether the update was published,
forced, or suppressed (in the suppressed case the guard equality already
says so). -/
theorem publish_lastSignature (force : Bool) (c : ProblemContext) (st : PublisherState) :
    ((publishContextIfChanged force (some c) st).1).lastContextSignature =
      contextSignature (some c) := by
  rw [publishContextIfChanged_some]
  split
  · next hcond => exact hcond.2.symm
  · rfl

/-- Claim C9: two consecutive context extractions with identical URL,
identical title and identical first 1500 characters of description do not
trigger a second `CONTEXT_UPDATE` bus call when the second scan is not
forced — whatever the first scan did (published, forced, or itself
suppressed). -/
theorem consecutive_identical_context_suppressed (force1 : Bool)
    (c1 c2 : ProblemContext) (st : PublisherState)
    (hurl : c2.url = c1.url) (htitle : c2.title = c1.title)
    (hdesc : c2.description.take 1500 = c1.description.take 1500) :
    (publishContextIfChanged false (some c2)
      ((publishContextIfChanged force1 (some c1) st).1)).2 = none := by
  have hsig : contextSignature (some c2) = contextSignature (some c1) := by
    simp [contextSignature, hurl, htitle, hdesc]
  set st1 := (publishContextIfChanged force1 (some c1) st).1 with hst1
  have hlast : st1.lastContextSignature = contextSignature (some c1) :=
    publish_lastSignature force1 c1 st
  have hcond : ¬ (false : Bool) ∧ contextSignature (some c2) = st1.lastContextSignature :=
    ⟨by simp, by rw [hsig, hlast]⟩
  rw [publishContextIfChanged_some, if_pos hcond]

/-- The initial publisher state of the content script
(`src/src/content/index.tsx`, lines 34–46): empty remembered signature, no
context, scanning status. -/
def initialPublisherState : PublisherState where
  lastContextSignature := ""
  context := none
  statusText := "Scanning page..."
  statusType := "warn"

/-- A concrete extracted context used to instantiate claim C9. -/
def sampleContext : ProblemContext where
  site := "leetcode"
  url := "https://example.test/problem/1"
  title := "Two Sum"
  description := "Find two numbers adding to target."
  constraints := ""
  examples := ""
  confidence := 0.3
  extractedAt := "2026-01-01"

/-- Claim C9 witness: the suppression statement evaluated at a concrete
repeated extraction of the same context. -/
theorem consecutive_identical_context_suppressed_witness :
    (publishContextIfChanged false (some sampleContext)
      ((publishContextIfChanged true (some sampleContext) initialPublisherState).1)).2 =
      none :=
  consecutive_identical_context_suppressed true sampleContext sampleContext
    initialPublisherState rfl rfl rfl

/-- A context whose URL itself contains the `"|"` separator. -/
def pipeContextA : ProblemContext where
  site := "generic"
  url := "https://a|b"
  title := "c"
  description := ""
  constraints := ""
  examples := ""
  confidence := 0
  extractedAt := ""

/-- A context genuinely different from `pipeContextA` (different URL and
title) with the same signature. -/
def pipeContextB : ProblemContext where
  site := "generic"
  url := "https://a"
  title := "b|c"
  description := ""
  constraints := ""
  examples := ""
  confidence := 0
  extractedAt := ""

/-- Claim C10: `contextSignature` is not injective on (url, title,
description prefix) — the two concrete contexts differ in URL and title yet
share the signature, because the three fields are joined with a `"|"`
separator that can also occur inside a field; consequently, after the first
context is published, an unforced scan that extracts the second, genuinely
different context is suppressed: no `CONTEXT_UPDATE` call is made and the
held context remains the first one. -/
theorem contextSignature_not_injective :
    pipeContextA.url ≠ pipeContextB.url ∧
    pipeContextA.title ≠ pipeContextB.title ∧
    contextSignature (some pipeContextA) = contextSignature (some pipeContextB) ∧
    (publishContextIfChanged false (some pipeContextA) initialPublisherState).2 =
      some pipeContextA ∧
    (publishContextIfChanged false (some pipeContextB)
      ((publishContextIfChanged false (some pipeContextA) initialPublisherState).1)).2 =
      none ∧
    (publishContextIfChanged false (some pipeContextB)
      ((publishContextIfChanged false (some pipeContextA) initialPublisherState).1)).1.context =
      some pipeContextA := by
  have hsig : contextSignature (some pipeContextA) = contextSignature (some pipeContextB) := by
    simp only [contextSignature, String.take_eq, pipeContextA, pipeContextB]
    decide
  have hsigA : contextSignature (some pipeContextA) ≠ "" := by
    simp only [contextSignature, String.take_eq, pipeContextA]
    decide
  have hcondA : ¬ (¬ (false : Bool) ∧ contextSignature (some pipeContextA) =
      initialPublisherState.lastContextSignature) := by
    intro hc
    exact hsigA hc.2
  have hfirst : publishContextIfChanged false (some pipeContextA) initialPublisherState =
      ({ lastContextSignature := contextSignature (some pipeContextA)
         context := some pipeContextA
         statusText := if pipeContextA.confidence ≥ 0.7 then "Ready"
           else "Partial context detected"
         statusType := if pipeContextA.confidence ≥ 0.7 then "ok" else "warn" },
       some pipeContextA) := by
    rw [publishContextIfChanged_some, if_neg hcondA]
  have hcondB : ¬ (false : Bool) ∧ contextSignature (some pipeContextB) =
      (publishContextIfChanged false (some pipeContextA) initialPublisherState).1.lastContextSignature :=
    ⟨by simp, by rw [publish_lastSignature, hsig]⟩
  have hsecond : publishContextIfChanged false (some pipeContextB)
      ((publishContextIfChanged false (some pipeContextA) initialPublisherState).1) =
      ((publishContextIfChanged false (some pipeContextA) initialPublisherState).1, none) := by
    rw [publishContextIfChanged_some, if_pos hcondB]
  refine ⟨by decide, by decide, hsig, ?_, ?_, ?_⟩
  · rw [hfirst]
  · rw [hsecond]
  · rw [hsecond, hfirst]

/-- Claim C6 witness: cancelling an unknown (tabId, requestId) pair on an
empty manager is a complete no-op. -/
theorem cancel_idempotent_witness :
    cancel { sessions := ∅, abortedKeys := ∅ } 1 "r" =
      ({ sessions := ∅, abortedKeys := ∅ }, []) :=
  (cancel_idempotent { sessions := ∅, abortedKeys := ∅ } 1 "r").2.2.1
    (Finset.not_mem_empty _)
